import Mathlib

/-!
# Verification of the auto-label-merge-conflicts action (`src/lib/main.ts`)

A shallow embedding of the `run` function of `src/lib/main.ts`: the label
resolver (lines 34-47), the bounded-retry mergeability poll loop
(lines 54-82), the classifier (lines 84-89 and 122-127) and the two
reconciliation passes (lines 91-120 and 129-160).

Modelling conventions:

* GraphQL edge wrappers are kept (`GithubLabelNode.node`, `GithubPRNode.node`);
  the `edges` list of `labels` is embedded directly as a Lean list.
* `core.setFailed` does not stop execution in the source; it only records a
  failure.  The embedding therefore threads a `failed` flag and keeps
  executing, exactly as the TypeScript does.
* A JavaScript `TypeError` thrown by dereferencing `undefined` is modelled
  explicitly: the poll loop can end in a `crashed` outcome (the error escapes
  `run`), and a per-PR callback can end in a `typeError*` outcome (the error
  is confined to that callback's promise, or caught by the callback's
  `try`/`catch`).
* Transport calls are inputs: the label fetch is one `Except` value, the PR
  fetches are a function from the attempt number (1-based) to an `Except`
  value, and the per-PR add/remove mutations are boolean success oracles.
-/

namespace AutoLabel

/-- A label as returned by the GraphQL API: `{ id, name }`. -/
structure GithubLabel where
  id : String
  name : String
deriving DecidableEq, Repr

/-- `IGithubLabelNode`: an edge wrapper around a label. -/
structure GithubLabelNode where
  node : GithubLabel
deriving DecidableEq, Repr

/-- A pull request as fetched: id, number, tri-state `mergeable` string
(`"CONFLICTING"`, `"MERGEABLE"` or `"UNKNOWN"` from the GraphQL enum), and
its applied labels (`labels.edges`). -/
structure GithubPR where
  id : String
  number : Nat
  mergeable : String
  labels : List GithubLabelNode
deriving DecidableEq, Repr

/-- `IGithubPRNode`: an edge wrapper around a pull request. -/
structure GithubPRNode where
  node : GithubPR
deriving DecidableEq, Repr

/-- Lines 36-40 of `main.ts`: the label resolver.
`labelData.repository.labels.edges.find(label => label.node.name === conflictLabelName)` —
an exact equality check on the name field over all candidates, because the
GraphQL `query` match is fuzzy. -/
def findConflictLabel (edges : List GithubLabelNode) (conflictLabelName : String) :
    Option GithubLabelNode :=
  edges.find? (fun label => label.node.name == conflictLabelName)

/-- Modelled from the spec: `getPullrequestsWithoutMergeStatus` lives in
`src/lib/util.ts`, which is not under `src/`.  Spec 4.2 step 2: "compute the
subset of pull requests whose fact is `Unknown`"; the source's call site
(lines 73-76) names it "check if there are PRs with unknown mergeable
status". -/
def getPullrequestsWithoutMergeStatus (pullRequests : List GithubPRNode) :
    List GithubPRNode :=
  pullRequests.filter (fun pr => pr.node.mergeable == "UNKNOWN")

/-- The mutable state of the poll loop (lines 54-77): the attempt counter
`tries`, the `pullRequests` variable (declared with a definite-assignment
assertion, hence `Option`: `none` is TypeScript `undefined`), the
`pullrequestsWithoutMergeStatus` subset, and whether any
`getPullRequests` call threw (which only calls `core.setFailed`). -/
structure PollState where
  tries : Nat
  pullRequests : Option (List GithubPRNode)
  unresolved : List GithubPRNode
  fetchFailed : Bool
deriving DecidableEq, Repr

/-- One iteration of the loop body (lines 60-76): increment `tries`, fetch;
on a transport error `core.setFailed` is called and `pullRequests` keeps its
previous value; then the `Unknown` subset is recomputed from the
`pullRequests` variable.  Returns `none` when that recomputation dereferences
an undefined `pullRequests` (first fetch failed): the `TypeError` escapes
`run`. -/
def pollStep (prFetches : Nat → Except Unit (List GithubPRNode)) (s : PollState) :
    Option PollState :=
  let t := s.tries + 1
  match prFetches t with
  | .ok prs =>
      some { tries := t, pullRequests := some prs,
             unresolved := getPullrequestsWithoutMergeStatus prs,
             fetchFailed := s.fetchFailed }
  | .error _ =>
      match s.pullRequests with
      | some prs =>
          some { tries := t, pullRequests := some prs,
                 unresolved := getPullrequestsWithoutMergeStatus prs,
                 fetchFailed := true }
      | none => none

/-- How the poll loop ends: normally, or by an uncaught `TypeError`
(recording how many fetch attempts had been made). -/
inductive PollOutcome where
  | done (s : PollState)
  | crashed (tries : Nat)
deriving DecidableEq, Repr

/-- Fetch attempts performed by the loop. -/
def PollOutcome.attempts : PollOutcome → Nat
  | .done s => s.tries
  | .crashed t => t

/-- The loop after its first iteration.  The source condition is
`(unresolved.length > 0 && tries < maxRetries) || tries === 0`; once
`tries ≥ 1` it is `unresolved ≠ [] ∧ tries < maxRetries`, and the structural
fuel maintains `fuel = maxRetries - tries`, so `fuel = 0 ↔ tries ≥ maxRetries`. -/
def pollRest (prFetches : Nat → Except Unit (List GithubPRNode)) :
    Nat → PollState → PollOutcome
  | 0, s => .done s
  | fuel + 1, s =>
      if s.unresolved.isEmpty then .done s
      else
        match pollStep prFetches s with
        | some s2 => pollRest prFetches fuel s2
        | none => .crashed (s.tries + 1)

/-- Lines 54-77: the whole loop.  `tries` starts at 0 and `unresolved` starts
empty, so the first iteration runs unconditionally (`tries === 0`); the rest
is `pollRest` with fuel `maxRetries - 1`. -/
def pollLoop (prFetches : Nat → Except Unit (List GithubPRNode)) (maxRetries : Nat) :
    PollOutcome :=
  match pollStep prFetches
      { tries := 0, pullRequests := none, unresolved := [], fetchFailed := false } with
  | some s1 => pollRest prFetches (maxRetries - 1) s1
  | none => .crashed 1

/-- Line 94 / line 133: `pullrequest.node.labels.edges.find(label => label.node.id === conflictLabel.node.id)`
used as a boolean (truthiness of the found edge). -/
def isAlreadyLabeled (conflictLabel : GithubLabelNode) (pr : GithubPRNode) : Bool :=
  pr.node.labels.any (fun label => label.node.id == conflictLabel.node.id)

/-- Lines 85-89: `pullrequestsWithConflicts`, the label-pass input. -/
def pullrequestsWithConflicts (pullRequests : List GithubPRNode) : List GithubPRNode :=
  pullRequests.filter (fun pullrequest => pullrequest.node.mergeable == "CONFLICTING")

/-- Lines 123-127: `pullrequestsWithConflictResolution`, the unlabel-pass input. -/
def pullrequestsWithConflictResolution (pullRequests : List GithubPRNode) :
    List GithubPRNode :=
  pullRequests.filter (fun pullrequest => pullrequest.node.mergeable == "MERGEABLE")

/-- What one per-PR `forEach` callback did. -/
inductive PassOutcome where
  /-- The no-op branch: already labeled (label pass) or not labeled (unlabel pass). -/
  | skipped
  /-- The add/remove API call was made and succeeded. -/
  | mutated
  /-- The add/remove API call was made and threw; the callback's `catch` called
  `core.setFailed`. -/
  | mutationFailed
  /-- `conflictLabel` was `undefined` and the dereference `conflictLabel.node.id`
  happened outside the `try` (inside the `find` callback, lines 94-98 / 133-137):
  the `TypeError` rejects that callback's promise, `core.setFailed` is not called. -/
  | typeErrorUncaught
  /-- `conflictLabel` was `undefined` and the dereference happened while building
  the mutation's argument object inside the `try` (line 108): caught, and the
  `catch` called `core.setFailed`.  No API call was made. -/
  | typeErrorCaught
deriving DecidableEq, Repr

/-- True exactly when the callback reached the add/remove API call
(the mutation was dispatched to the transport). -/
def PassOutcome.issued : PassOutcome → Bool
  | .mutated => true
  | .mutationFailed => true
  | _ => false

/-- Lines 93-116: one label-pass callback.  With `conflictLabel` undefined:
if the PR has at least one label, the `find` callback (line 96) dereferences
`undefined` (uncaught); with no labels, `find` never runs its callback,
`isAlreadyLabeled` is falsy, and the dereference happens at line 108 inside
the `try` (caught). -/
def labelPassOutcome (conflictLabel : Option GithubLabelNode)
    (addOk : GithubPRNode → Bool) (pr : GithubPRNode) : PassOutcome :=
  match conflictLabel with
  | none => if pr.node.labels.isEmpty then .typeErrorCaught else .typeErrorUncaught
  | some cl =>
      if isAlreadyLabeled cl pr then .skipped
      else if addOk pr then .mutated else .mutationFailed

/-- Lines 131-156: one unlabel-pass callback.  With `conflictLabel` undefined:
a PR with labels hits the uncaught dereference in the `find` callback; a PR
with no labels takes the `!isAlreadyLabeled` skip branch and never
dereferences. -/
def unlabelPassOutcome (conflictLabel : Option GithubLabelNode)
    (removeOk : GithubPRNode → Bool) (pr : GithubPRNode) : PassOutcome :=
  match conflictLabel with
  | none => if pr.node.labels.isEmpty then .skipped else .typeErrorUncaught
  | some cl =>
      if isAlreadyLabeled cl pr then
        if removeOk pr then .mutated else .mutationFailed
      else .skipped

/-- Lines 92-116: the label pass pairs each conflicted PR with its callback's
outcome (the `forEach` visits every element; a rejected callback promise does
not stop the iteration). -/
def labelPass (conflictLabel : Option GithubLabelNode) (addOk : GithubPRNode → Bool)
    (pullRequests : List GithubPRNode) : List (GithubPRNode × PassOutcome) :=
  (pullrequestsWithConflicts pullRequests).map
    (fun pr => (pr, labelPassOutcome conflictLabel addOk pr))

/-- Lines 130-156: the unlabel pass, likewise. -/
def unlabelPass (conflictLabel : Option GithubLabelNode)
    (removeOk : GithubPRNode → Bool) (pullRequests : List GithubPRNode) :
    List (GithubPRNode × PassOutcome) :=
  (pullrequestsWithConflictResolution pullRequests).map
    (fun pr => (pr, unlabelPassOutcome conflictLabel removeOk pr))

/-- The observable result of `run`: whether `core.setFailed` was ever called
(`failed`), whether an uncaught synchronous `TypeError` escaped `run`
(`crashed`), how many `getPullRequests` attempts were made, the resolved
conflict label, and the per-PR outcomes of the two passes. -/
structure RunResult where
  failed : Bool
  crashed : Bool
  fetchAttempts : Nat
  conflictLabel : Option GithubLabelNode
  labelOutcomes : List (GithubPRNode × PassOutcome)
  unlabelOutcomes : List (GithubPRNode × PassOutcome)
deriving DecidableEq, Repr

/-- Lines 12-161: the whole `run` function.  `maxRetries = 60` is hardcoded
(line 21).  `labelFetch` is the `getLabels` call (its `.error` models a thrown
transport error, caught at lines 28-30 by `core.setFailed`); `prFetches t` is
the `getPullRequests` call of attempt `t`; `addOk`/`removeOk` decide whether a
given PR's mutation call succeeds. -/
def run (conflictLabelName : String) (labelFetch : Except Unit (List GithubLabelNode))
    (prFetches : Nat → Except Unit (List GithubPRNode))
    (addOk removeOk : GithubPRNode → Bool) : RunResult :=
  let labelData : Option (List GithubLabelNode) := labelFetch.toOption
  let labelFetchFailed : Bool := !labelData.isSome
  -- lines 32-47: conflictLabel stays undefined when the fetch failed, and also
  -- when no exact-name match exists (then core.setFailed is called, line 43).
  let conflictLabel : Option GithubLabelNode :=
    match labelData with
    | some edges => findConflictLabel edges conflictLabelName
    | none => none
  let labelNotFound : Bool := labelData.isSome && !conflictLabel.isSome
  match pollLoop prFetches 60 with
  | .crashed t =>
      -- the TypeError escapes run; core.setFailed had been called for the
      -- failing fetch (line 70) before the crash.
      { failed := true, crashed := true, fetchAttempts := t,
        conflictLabel := conflictLabel, labelOutcomes := [], unlabelOutcomes := [] }
  | .done s =>
      let pullRequests := s.pullRequests.getD []
      -- lines 80-82: budget exhausted with PRs still unknown.
      let budgetExhausted : Bool := !s.unresolved.isEmpty
      let labelOutcomes := labelPass conflictLabel addOk pullRequests
      let unlabelOutcomes := unlabelPass conflictLabel removeOk pullRequests
      let mutationFailed : Bool := (labelOutcomes ++ unlabelOutcomes).any
        (fun x => x.2 == PassOutcome.mutationFailed || x.2 == PassOutcome.typeErrorCaught)
      { failed := labelFetchFailed || labelNotFound || s.fetchFailed ||
          budgetExhausted || mutationFailed,
        crashed := false, fetchAttempts := s.tries,
        conflictLabel := conflictLabel,
        labelOutcomes := labelOutcomes, unlabelOutcomes := unlabelOutcomes }

/-! ## Effect of a run on the label relation

The two passes issue at most one operation per PR (lines 100-115: add exactly
when a conflicted PR is not already labeled; lines 139-154: remove exactly
when a resolved PR is labeled).  The effect of a successful `addLabel` /
`removeLabel` on the label relation is the external API contract (spec 6). -/

/-- The label pass issues an add for this PR (line 104's else branch). -/
def addIssued (conflictLabel : GithubLabelNode) (pr : GithubPRNode) : Bool :=
  pr.node.mergeable == "CONFLICTING" && !isAlreadyLabeled conflictLabel pr

/-- The unlabel pass issues a remove for this PR (line 143's else branch). -/
def removeIssued (conflictLabel : GithubLabelNode) (pr : GithubPRNode) : Bool :=
  pr.node.mergeable == "MERGEABLE" && isAlreadyLabeled conflictLabel pr

/-- Some add or remove operation is issued for this PR by the two passes. -/
def reconcilerTouches (conflictLabel : GithubLabelNode) (pr : GithubPRNode) : Bool :=
  addIssued conflictLabel pr || removeIssued conflictLabel pr

/-- The PR's applied labels after both passes' operations succeed:
`addLabel` adds the conflict label, `removeLabel` removes it, otherwise the
relation is untouched. -/
def labelsAfter (conflictLabel : GithubLabelNode) (pr : GithubPRNode) :
    List GithubLabelNode :=
  if addIssued conflictLabel pr then pr.node.labels ++ [conflictLabel]
  else if removeIssued conflictLabel pr then
    pr.node.labels.filter (fun label => !(label.node.id == conflictLabel.node.id))
  else pr.node.labels

/-- The conflict label is applied to the PR after the run's operations. -/
def hasLabelAfter (conflictLabel : GithubLabelNode) (pr : GithubPRNode) : Bool :=
  (labelsAfter conflictLabel pr).any
    (fun label => label.node.id == conflictLabel.node.id)

/-- The snapshot a later fetch would see, when no PR's branches change between
the runs: same ids, numbers and mergeability facts, labels updated by the
run's operations. -/
def applyReconciler (conflictLabel : GithubLabelNode)
    (pullRequests : List GithubPRNode) : List GithubPRNode :=
  pullRequests.map (fun pr =>
    { node := { id := pr.node.id, number := pr.node.number,
                mergeable := pr.node.mergeable,
                labels := labelsAfter conflictLabel pr } })

/-- How many add/remove operations the two passes issue on a snapshot. -/
def mutationCount (conflictLabel : GithubLabelNode)
    (pullRequests : List GithubPRNode) : Nat :=
  (pullRequests.filter (fun pr => reconcilerTouches conflictLabel pr)).length

/-! ## Event-loop model of the dispatch of the mutations

Both passes use `forEach(async ...)` (lines 93 and 131): each callback runs
synchronously up to its first `await` — the add/remove call, whose promise is
queued — and `forEach` moves on without awaiting it.  After the second pass
`run`'s body has no further `await`, so `run`'s promise resolves at the end of
that synchronous stretch, and the queued mutation continuations (where the
calls settle) can only run afterwards. -/

/-- A mutation request, as dispatched: which operation for which labelable id. -/
inductive MutOp where
  | add (labelableId : String)
  | remove (labelableId : String)
deriving DecidableEq, Repr

/-- The mutation calls the two passes dispatch, in dispatch order (the label
pass's `forEach` runs first, lines 92-116, then the unlabel pass's,
lines 130-156). -/
def issuedOps (conflictLabel : GithubLabelNode) (pullRequests : List GithubPRNode) :
    List MutOp :=
  (pullrequestsWithConflicts pullRequests).filterMap (fun pr =>
    if isAlreadyLabeled conflictLabel pr then none else some (MutOp.add pr.node.id)) ++
  (pullrequestsWithConflictResolution pullRequests).filterMap (fun pr =>
    if isAlreadyLabeled conflictLabel pr then some (MutOp.remove pr.node.id) else none)

/-- Observable events of the end of a (successful-transport) run. -/
inductive RunEvent where
  /-- A per-PR callback reached its mutation call and handed it to the transport. -/
  | dispatched (op : MutOp)
  /-- The promise of `run` resolved. -/
  | returned
  /-- A dispatched mutation call settled. -/
  | settled (op : MutOp)
deriving DecidableEq, Repr

/-- The event order of `run`'s reconciliation phase under the JavaScript
event loop: every dispatch happens during `run`'s synchronous stretch, `run`
returns at its end, and only then can the awaited mutation calls settle,
because neither `forEach` nor anything after it awaits their promises. -/
def runTrace (conflictLabel : GithubLabelNode) (pullRequests : List GithubPRNode) :
    List RunEvent :=
  (issuedOps conflictLabel pullRequests).map RunEvent.dispatched ++
    [RunEvent.returned] ++
    (issuedOps conflictLabel pullRequests).map RunEvent.settled

/-- The mutations that have settled by the time `run` returns. -/
def settledBeforeReturn (conflictLabel : GithubLabelNode)
    (pullRequests : List GithubPRNode) : List MutOp :=
  ((runTrace conflictLabel pullRequests).takeWhile
      (fun e => !(e == RunEvent.returned))).filterMap
    (fun e => match e with | RunEvent.settled op => some op | _ => none)

/-! ## Concrete fixtures -/

/-- The configured conflict-label name used by the concrete scenarios. -/
def conflictLabelNameEx : String := "has conflicts"

/-- The repository's conflict label (exact name match). -/
def conflictLabelEx : GithubLabelNode := ⟨⟨"L1", "has conflicts"⟩⟩

/-- A fuzzy near-match the GraphQL query could also return. -/
def oldLabelEx : GithubLabelNode := ⟨⟨"L2", "has-conflicts-old"⟩⟩

/-- A conflicting PR that does not carry the conflict label. -/
def prConflictUnlabeled : GithubPRNode := ⟨⟨"PR1", 1, "CONFLICTING", []⟩⟩

/-- A mergeable PR that still carries the conflict label. -/
def prMergeableLabeled : GithubPRNode := ⟨⟨"PR2", 2, "MERGEABLE", [conflictLabelEx]⟩⟩

/-- A conflicting PR that already carries the conflict label. -/
def prConflictLabeled : GithubPRNode := ⟨⟨"PR3", 3, "CONFLICTING", [conflictLabelEx]⟩⟩

/-- A PR whose mergeability fact never resolves. -/
def prUnknown : GithubPRNode := ⟨⟨"PR4", 4, "UNKNOWN", []⟩⟩

/-- A conflicting PR carrying only an unrelated label. -/
def prConflictOtherLabeled : GithubPRNode := ⟨⟨"PR5", 5, "CONFLICTING", [oldLabelEx]⟩⟩

/-- Unresolved PRs reported by a finished poll. -/
def PollOutcome.unresolvedCount : PollOutcome → Nat
  | .done s => s.unresolved.length
  | .crashed _ => 0

/-! ## Helper lemmas -/

/-- A poll-loop iteration increments the attempt counter. -/
theorem pollStep_tries (prFetches : Nat → Except Unit (List GithubPRNode))
    (s s2 : PollState) (h : pollStep prFetches s = some s2) :
    s2.tries = s.tries + 1 := by
  unfold pollStep at h
  cases hf : prFetches (s.tries + 1) with
  | ok prs => simp [hf] at h; rw [← h]
  | error e =>
      cases hp : s.pullRequests with
      | some prs => simp [hf, hp] at h; rw [← h]
      | none => simp [hf, hp] at h

/-- The attempt counter never decreases across the rest of the loop. -/
theorem pollRest_attempts_ge (prFetches : Nat → Except Unit (List GithubPRNode)) :
    ∀ (fuel : Nat) (s : PollState),
      s.tries ≤ (pollRest prFetches fuel s).attempts := by
  intro fuel
  induction fuel with
  | zero => intro s; exact Nat.le_refl _
  | succ fuel ih =>
      intro s
      unfold pollRest
      by_cases hu : s.unresolved.isEmpty
      · simp [hu, PollOutcome.attempts]
      · simp [hu]
        cases hstep : pollStep prFetches s with
        | some s2 =>
            have h2 := pollStep_tries prFetches s s2 hstep
            calc s.tries ≤ s2.tries := by omega
              _ ≤ (pollRest prFetches fuel s2).attempts := ih s2
        | none => simp [PollOutcome.attempts]

/-- If the rest of the loop finishes normally, it stopped because the
unresolved subset was empty or the attempt budget was spent (the invariant is
`maxRetries ≤ fuel + tries`). -/
theorem pollRest_done_stop (prFetches : Nat → Except Unit (List GithubPRNode))
    (maxRetries : Nat) :
    ∀ (fuel : Nat) (s s2 : PollState), maxRetries ≤ fuel + s.tries →
      pollRest prFetches fuel s = .done s2 →
      s2.unresolved = [] ∨ maxRetries ≤ s2.tries := by
  intro fuel
  induction fuel with
  | zero =>
      intro s s2 hinv hdone
      simp [pollRest] at hdone
      right
      rw [← hdone]
      omega
  | succ fuel ih =>
      intro s s2 hinv hdone
      unfold pollRest at hdone
      by_cases hu : s.unresolved.isEmpty
      · simp [hu] at hdone
        left
        rw [← hdone]
        exact List.isEmpty_iff.mp hu
      · simp [hu] at hdone
        cases hstep : pollStep prFetches s with
        | some s3 =>
            rw [hstep] at hdone
            have h3 := pollStep_tries prFetches s s3 hstep
            exact ih s3 s2 (by omega) hdone
        | none => rw [hstep] at hdone; exact absurd hdone (by simp)

/-- Removing every label with the conflict label's id leaves none behind. -/
theorem any_beq_filter (l : List GithubLabelNode) (s : String) :
    (l.filter (fun label => !(label.node.id == s))).any
      (fun label => label.node.id == s) = false := by
  induction l with
  | nil => rfl
  | cons a t ih => cases h : a.node.id == s <;> simp [List.filter_cons, h, ih]

/-- After the run's operations a conflicting PR carries the conflict label:
either it already did (the pass skips), or the add was issued. -/
theorem hasLabelAfter_conflicting (cl : GithubLabelNode) (pr : GithubPRNode)
    (h : pr.node.mergeable = "CONFLICTING") : hasLabelAfter cl pr = true := by
  unfold hasLabelAfter labelsAfter addIssued removeIssued
  rw [h]
  by_cases hl : isAlreadyLabeled cl pr
  · simp [hl]
    simpa [isAlreadyLabeled] using hl
  · simp [hl, List.any_append]

/-- After the run's operations a mergeable PR does not carry the conflict
label: either it did not (the pass skips), or the remove was issued. -/
theorem hasLabelAfter_mergeable (cl : GithubLabelNode) (pr : GithubPRNode)
    (h : pr.node.mergeable = "MERGEABLE") : hasLabelAfter cl pr = false := by
  unfold hasLabelAfter labelsAfter addIssued removeIssued
  rw [h]
  by_cases hl : isAlreadyLabeled cl pr
  · simp [hl, any_beq_filter]
  · simp [hl]
    simp at hl
    simpa [isAlreadyLabeled] using hl

/-- A PR whose fact is neither Conflicting nor Mergeable gets no operation
and its labels are untouched. -/
theorem labelsAfter_untouched (cl : GithubLabelNode) (pr : GithubPRNode)
    (hc : ¬pr.node.mergeable = "CONFLICTING")
    (hm : ¬pr.node.mergeable = "MERGEABLE") :
    reconcilerTouches cl pr = false ∧ labelsAfter cl pr = pr.node.labels := by
  have hc2 : (pr.node.mergeable == "CONFLICTING") = false := beq_eq_false_iff_ne.mpr hc
  have hm2 : (pr.node.mergeable == "MERGEABLE") = false := beq_eq_false_iff_ne.mpr hm
  constructor
  · simp [reconcilerTouches, addIssued, removeIssued, hc2, hm2]
  · simp [labelsAfter, addIssued, removeIssued, hc2, hm2]

/-- Rerunning the passes on a PR whose labels were updated by the run's own
operations (facts unchanged) issues nothing. -/
theorem reconcilerTouches_after (cl : GithubLabelNode) (pr : GithubPRNode) :
    reconcilerTouches cl
      ⟨⟨pr.node.id, pr.node.number, pr.node.mergeable, labelsAfter cl pr⟩⟩ = false := by
  have key : isAlreadyLabeled cl
      ⟨⟨pr.node.id, pr.node.number, pr.node.mergeable, labelsAfter cl pr⟩⟩ =
        hasLabelAfter cl pr := rfl
  unfold reconcilerTouches addIssued removeIssued
  rw [key]
  by_cases hc : pr.node.mergeable = "CONFLICTING"
  · simp [hc, hasLabelAfter_conflicting cl pr hc]
  · by_cases hm : pr.node.mergeable = "MERGEABLE"
    · simp [hm, hasLabelAfter_mergeable cl pr hm]
    · have hc2 : (pr.node.mergeable == "CONFLICTING") = false := beq_eq_false_iff_ne.mpr hc
      have hm2 : (pr.node.mergeable == "MERGEABLE") = false := beq_eq_false_iff_ne.mpr hm
      simp [hc2, hm2]

/-! ## Claim theorems -/

/-- C2: the polling loop performs at least one fetch unconditionally; when it
finishes normally it stopped because a fetch reported no Unknown pull requests
or the attempt counter reached `maxRetries`; and with `maxRetries = 3` and a
pull request whose fact never resolves, it performs exactly 3 fetch attempts
and finishes with one unresolved PR. -/
theorem C2_poller_budget :
    (∀ (prFetches : Nat → Except Unit (List GithubPRNode)) (maxRetries : Nat),
        1 ≤ (pollLoop prFetches maxRetries).attempts) ∧
    (∀ (prFetches : Nat → Except Unit (List GithubPRNode)) (maxRetries : Nat)
        (s : PollState), pollLoop prFetches maxRetries = .done s →
        s.unresolved = [] ∨ maxRetries ≤ s.tries) ∧
    (pollLoop (fun _ => Except.ok [prUnknown]) 3).attempts = 3 ∧
    (pollLoop (fun _ => Except.ok [prUnknown]) 3).unresolvedCount = 1 := by
  refine ⟨?_, ?_, by decide, by decide⟩
  · intro prFetches maxRetries
    unfold pollLoop
    cases hstep : pollStep prFetches
        { tries := 0, pullRequests := none, unresolved := [], fetchFailed := false } with
    | some s1 =>
        have h1 : s1.tries = 1 := by
          simpa using pollStep_tries prFetches _ s1 hstep
        have h2 := pollRest_attempts_ge prFetches (maxRetries - 1) s1
        exact h1 ▸ h2
    | none => simp [PollOutcome.attempts]
  · intro prFetches maxRetries s hdone
    unfold pollLoop at hdone
    cases hstep : pollStep prFetches
        { tries := 0, pullRequests := none, unresolved := [], fetchFailed := false } with
    | some s1 =>
        rw [hstep] at hdone
        have h1 : s1.tries = 1 := by
          simpa using pollStep_tries prFetches _ s1 hstep
        exact pollRest_done_stop prFetches maxRetries (maxRetries - 1) s1 s
          (by omega) hdone
    | none => rw [hstep] at hdone; exact absurd hdone (by simp)

/-- Witness for C2 at the concrete never-resolving input. -/
theorem C2_poller_budget_witness :
    (⟨3, some [prUnknown], [prUnknown], false⟩ : PollState).unresolved = [] ∨
      3 ≤ (⟨3, some [prUnknown], [prUnknown], false⟩ : PollState).tries :=
  C2_poller_budget.2.1 (fun _ => Except.ok [prUnknown]) 3
    ⟨3, some [prUnknown], [prUnknown], false⟩ (by decide)

/-- C7: the label resolver selects by exact equality on the name field among
all candidates (whatever the fuzzy lookup's ranking), and on the candidate
list [has conflicts, has-conflicts-old] with target name "has conflicts" it
returns the first label, never the fuzzy second match. -/
theorem C7_resolver_exact_match :
    (∀ (edges : List GithubLabelNode) (name : String) (l : GithubLabelNode),
        findConflictLabel edges name = some l → l.node.name = name) ∧
    findConflictLabel [conflictLabelEx, oldLabelEx] conflictLabelNameEx =
      some conflictLabelEx ∧
    findConflictLabel [conflictLabelEx, oldLabelEx] conflictLabelNameEx ≠
      some oldLabelEx := by
  refine ⟨?_, by decide, by decide⟩
  intro edges name l h
  have hp := List.find?_some h
  simpa using hp

/-- Witness for C7's exact-equality part at a concrete candidate list. -/
theorem C7_resolver_exact_match_witness :
    oldLabelEx.node.name = "has-conflicts-old" :=
  C7_resolver_exact_match.1 [oldLabelEx] "has-conflicts-old" oldLabelEx (by decide)

/-- C9: PRs still Unknown after the budget is exhausted enter neither the
label pass (`pullrequestsWithConflicts`) nor the unlabel pass
(`pullrequestsWithConflictResolution`) and no operation is issued for them,
while every PR that does enter a pass satisfies exactly one of
{Conflicting, Mergeable}. -/
theorem C9_unknown_excluded :
    ∀ (pullRequests : List GithubPRNode) (pr : GithubPRNode),
      (pr.node.mergeable = "UNKNOWN" →
        pr ∉ pullrequestsWithConflicts pullRequests ∧
        pr ∉ pullrequestsWithConflictResolution pullRequests ∧
        ∀ cl : GithubLabelNode, reconcilerTouches cl pr = false) ∧
      (pr ∈ pullrequestsWithConflicts pullRequests →
        pr.node.mergeable = "CONFLICTING" ∧ ¬pr.node.mergeable = "MERGEABLE") ∧
      (pr ∈ pullrequestsWithConflictResolution pullRequests →
        pr.node.mergeable = "MERGEABLE" ∧ ¬pr.node.mergeable = "CONFLICTING") := by
  intro pullRequests pr
  refine ⟨?_, ?_, ?_⟩
  · intro hu
    refine ⟨?_, ?_, ?_⟩
    · simp [pullrequestsWithConflicts, List.mem_filter, hu]
    · simp [pullrequestsWithConflictResolution, List.mem_filter, hu]
    · intro cl
      simp [reconcilerTouches, addIssued, removeIssued, hu]
  · intro hmem
    have h := (List.mem_filter.mp hmem).2
    simp at h
    simp [h]
  · intro hmem
    have h := (List.mem_filter.mp hmem).2
    simp at h
    simp [h]

/-- Witness for C9 at a concrete snapshot containing an Unknown PR. -/
theorem C9_unknown_excluded_witness :
    prUnknown ∉ pullrequestsWithConflicts [prUnknown, prConflictUnlabeled] ∧
    prUnknown ∉ pullrequestsWithConflictResolution [prUnknown, prConflictUnlabeled] ∧
    ∀ cl : GithubLabelNode, reconcilerTouches cl prUnknown = false :=
  (C9_unknown_excluded [prUnknown, prConflictUnlabeled] prUnknown).1 (by decide)

/-- C1 (amended): after the two passes' operations, a Conflicting PR carries
the Conflict Label and a Mergeable PR does not; an Unknown PR gets no
operation and keeps its labels; and restricted to PRs with a known fact the
biconditionals hold: label applied iff Conflicting, absent iff Mergeable.
(The unrestricted "untouched iff Unknown" direction fails, see the
counterexample: a conflicting PR that is already labeled is also untouched.) -/
theorem C1_reconciler_convergence :
    ∀ (cl : GithubLabelNode) (pr : GithubPRNode),
      (pr.node.mergeable = "CONFLICTING" → hasLabelAfter cl pr = true) ∧
      (pr.node.mergeable = "MERGEABLE" → hasLabelAfter cl pr = false) ∧
      (pr.node.mergeable = "UNKNOWN" →
        reconcilerTouches cl pr = false ∧ labelsAfter cl pr = pr.node.labels) ∧
      ((pr.node.mergeable = "CONFLICTING" ∨ pr.node.mergeable = "MERGEABLE") →
        ((hasLabelAfter cl pr = true ↔ pr.node.mergeable = "CONFLICTING") ∧
          (hasLabelAfter cl pr = false ↔ pr.node.mergeable = "MERGEABLE"))) := by
  intro cl pr
  refine ⟨hasLabelAfter_conflicting cl pr, hasLabelAfter_mergeable cl pr, ?_, ?_⟩
  · intro hu
    exact labelsAfter_untouched cl pr (by simp [hu]) (by simp [hu])
  · rintro (hc | hm)
    · rw [hc, hasLabelAfter_conflicting cl pr hc]
      simp
    · rw [hm, hasLabelAfter_mergeable cl pr hm]
      simp

/-- Witness for C1 at a concrete conflicting, unlabeled PR. -/
theorem C1_reconciler_convergence_witness :
    hasLabelAfter conflictLabelEx prConflictUnlabeled = true :=
  (C1_reconciler_convergence conflictLabelEx prConflictUnlabeled).1 (by decide)

/-- C1 counterexample: a conflicting PR that already carries the Conflict
Label is untouched (no add or remove issued for it, lines 100-103 skip)
although its fact is Conflicting, not Unknown — refuting the claimed
"untouched if and only if the fact is Unknown". -/
theorem C1_counterexample_untouched :
    ¬(reconcilerTouches conflictLabelEx prConflictLabeled = false ↔
        prConflictLabeled.node.mergeable = "UNKNOWN") := by decide

/-- C8 (amended): the Reconciler converges in one run — rerunning the two
passes on the snapshot whose label state reflects the first run's own
operations (facts unchanged) issues zero add or remove mutations. -/
theorem C8_reconciler_idempotent :
    ∀ (cl : GithubLabelNode) (pullRequests : List GithubPRNode),
      mutationCount cl (applyReconciler cl pullRequests) = 0 := by
  intro cl pullRequests
  induction pullRequests with
  | nil => rfl
  | cons pr rest ih =>
      have h := reconcilerTouches_after cl pr
      simp [mutationCount, applyReconciler, List.filter_cons, h]
      simpa [mutationCount, applyReconciler] using ih

/-- C8 counterexample: the Reconciler is a pure function of the snapshot, so
a second run on the literally unchanged snapshot issues exactly the same
mutations as the first; on a snapshot with one conflicting unlabeled PR that
is one mutation, not zero. -/
theorem C8_counterexample_second_run :
    mutationCount conflictLabelEx [prConflictUnlabeled] = 1 ∧
    mutationCount conflictLabelEx [prConflictUnlabeled] ≠ 0 := by decide

/-- Conflicting, unlabeled PR A of the reconciler-independence scenario. -/
def prIndepA : GithubPRNode := ⟨⟨"PRA", 10, "CONFLICTING", []⟩⟩

/-- Conflicting, unlabeled PR B of the reconciler-independence scenario. -/
def prIndepB : GithubPRNode := ⟨⟨"PRB", 11, "CONFLICTING", []⟩⟩

/-- The independence scenario: labeling PR A fails (simulated transport
error), PR B succeeds. -/
def runIndep : RunResult :=
  run conflictLabelNameEx (Except.ok [conflictLabelEx])
    (fun _ => Except.ok [prIndepA, prIndepB])
    (fun pr => !(pr.node.id == "PRA")) (fun _ => true)

/-- C6: the passes visit the same PRs with the same per-PR outcomes whatever
the success oracles do on any single PR (operations are independent, no
ordering dependency), and in the concrete scenario where PR A's add call
fails and PR B's succeeds, B's label is still applied and the run's overall
status is failed. -/
theorem C6_per_pr_failures_isolated :
    (∀ (cl : GithubLabelNode) (pullRequests : List GithubPRNode)
        (addOk addOk2 removeOk removeOk2 : GithubPRNode → Bool) (prA : GithubPRNode),
        (∀ pr, pr ≠ prA → addOk pr = addOk2 pr) →
        (∀ pr, pr ≠ prA → removeOk pr = removeOk2 pr) →
        (labelPass (some cl) addOk pullRequests).map Prod.fst =
            (labelPass (some cl) addOk2 pullRequests).map Prod.fst ∧
        (unlabelPass (some cl) removeOk pullRequests).map Prod.fst =
            (unlabelPass (some cl) removeOk2 pullRequests).map Prod.fst ∧
        ∀ pr, pr ≠ prA →
          labelPassOutcome (some cl) addOk pr = labelPassOutcome (some cl) addOk2 pr ∧
          unlabelPassOutcome (some cl) removeOk pr =
            unlabelPassOutcome (some cl) removeOk2 pr) ∧
    runIndep.labelOutcomes =
      [(prIndepA, PassOutcome.mutationFailed), (prIndepB, PassOutcome.mutated)] ∧
    runIndep.failed = true := by
  refine ⟨?_, by decide, by decide⟩
  intro cl pullRequests addOk addOk2 removeOk removeOk2 prA ha hr
  refine ⟨?_, ?_, ?_⟩
  · simp [labelPass, List.map_map, Function.comp_def]
  · simp [unlabelPass, List.map_map, Function.comp_def]
  · intro pr hne
    constructor
    · simp [labelPassOutcome, ha pr hne]
    · simp [unlabelPassOutcome, hr pr hne]

/-- Witness for C6: with oracles differing only at PR A, PR B's outcome is
unchanged. -/
theorem C6_per_pr_failures_isolated_witness :
    labelPassOutcome (some conflictLabelEx) (fun pr => !(pr == prIndepA)) prIndepB =
      labelPassOutcome (some conflictLabelEx) (fun _ => true) prIndepB :=
  ((C6_per_pr_failures_isolated.1 conflictLabelEx [prIndepA, prIndepB]
      (fun pr => !(pr == prIndepA)) (fun _ => true) (fun _ => true) (fun _ => true)
      prIndepA (fun pr h => by simp [h]) (fun _ _ => rfl)).2.2 prIndepB (by decide)).1

/-- The label-not-found scenario: the label fetch succeeds but no label's
name equals the configured name; one conflicting unlabeled PR is fetched. -/
def runLabelMissing : RunResult :=
  run conflictLabelNameEx (Except.ok [oldLabelEx])
    (fun _ => Except.ok [prConflictUnlabeled]) (fun _ => true) (fun _ => true)

/-- C3 evaluated at the failing input: when no exact-name label exists the
run is marked failed (line 43) and indeed no add or remove mutation is
issued, but the run does not abort — it still performs the PR fetch and
enters the label pass, where the conflicted PR's callback dereferences the
undefined `conflictLabel` (a caught TypeError here, since the PR has no
labels), instead of short-circuiting the remaining steps. -/
theorem C3_label_not_found_no_abort :
    runLabelMissing.failed = true ∧
    runLabelMissing.conflictLabel = none ∧
    runLabelMissing.fetchAttempts = 1 ∧
    runLabelMissing.labelOutcomes =
      [(prConflictUnlabeled, PassOutcome.typeErrorCaught)] ∧
    (runLabelMissing.labelOutcomes ++ runLabelMissing.unlabelOutcomes).all
      (fun x => !x.2.issued) = true := by decide

/-- The fetch sequence of the transport-error scenario: attempt 1 returns an
unknown PR plus a conflicting one, attempt 2 throws, attempt 3 resolves. -/
def prFetchesTransient : Nat → Except Unit (List GithubPRNode) := fun t =>
  if t == 1 then Except.ok [prUnknown, prConflictUnlabeled]
  else if t == 2 then Except.error ()
  else Except.ok [prConflictUnlabeled]

/-- The transport-error scenario run. -/
def runTransient : RunResult :=
  run conflictLabelNameEx (Except.ok [conflictLabelEx]) prFetchesTransient
    (fun _ => true) (fun _ => true)

/-- C4 evaluated at the failing input: the `getPullRequests` transport error
on attempt 2 only calls `core.setFailed` (line 70); the run does not abort —
it keeps polling (3 attempts in total), classifies the last snapshot, and the
label pass issues an add-label mutation after the fetch error. -/
theorem C4_fetch_error_no_abort :
    prFetchesTransient 2 = Except.error () ∧
    runTransient.failed = true ∧
    runTransient.crashed = false ∧
    runTransient.fetchAttempts = 3 ∧
    runTransient.labelOutcomes = [(prConflictUnlabeled, PassOutcome.mutated)] :=
  ⟨rfl, by decide⟩

/-- C5 evaluated at the failing input: for a snapshot with one conflicting
unlabeled PR, the run dispatches one add-label mutation, `run`'s promise
resolves before that mutation settles (the `forEach(async ...)` callbacks are
never awaited), and no dispatched mutation has settled by the time `run`
returns — the in-flight mutation can be dropped on process exit. -/
theorem C5_mutation_in_flight_at_return :
    issuedOps conflictLabelEx [prConflictUnlabeled] =
      [MutOp.add prConflictUnlabeled.node.id] ∧
    runTrace conflictLabelEx [prConflictUnlabeled] =
      [RunEvent.dispatched (MutOp.add prConflictUnlabeled.node.id),
       RunEvent.returned,
       RunEvent.settled (MutOp.add prConflictUnlabeled.node.id)] ∧
    settledBeforeReturn conflictLabelEx [prConflictUnlabeled] = [] := by decide

/-- The undefined-dereference scenario: label fetch succeeds with no exact
name match, and the snapshot holds a conflicting PR that carries an unrelated
label. -/
def runUndefDeref : RunResult :=
  run conflictLabelNameEx (Except.ok [oldLabelEx])
    (fun _ => Except.ok [prConflictOtherLabeled]) (fun _ => true) (fun _ => true)

/-- C10: after the label-not-found failure is reported (`failed = true`),
execution still reaches the label pass with `conflictLabel` undefined, and
the already-labeled check's `find` callback dereferences
`conflictLabel.node.id` (lines 93-98): the conflicted PR's outcome is the
uncaught TypeError of that dereference. -/
theorem C10_undefined_dereference_reachable :
    runUndefDeref.failed = true ∧
    runUndefDeref.conflictLabel = none ∧
    runUndefDeref.labelOutcomes =
      [(prConflictOtherLabeled, PassOutcome.typeErrorUncaught)] := by decide

end AutoLabel
